import Mathlib

/-!
Shallow embedding of the server core of the `energy` marketplace
(`src/server/routes.ts`, `src/server/storage.ts`,
`src/server/services/blockchain.ts`, shared schema).

Decimal columns (`decimal(18, …)` strings parsed with `parseFloat` and
written back with `toString`) are modelled as exact rationals `ℚ`; the
string/number round-trip is treated as the identity on the denoted value.
Identifiers and wallet addresses are `String`s compared exactly as the
TypeScript `===` does.  External calls (ethers provider / contracts) are
modelled by explicit outcome parameters: `Option`/oracle arguments stand
for "the awaited call returned this" or "the awaited call threw".
-/

/-- Decidable equality for `Except`, used to state concrete runs. -/
instance {ε α : Type} [DecidableEq ε] [DecidableEq α] : DecidableEq (Except ε α)
  | .error a, .error b =>
      if h : a = b then isTrue (by rw [h]) else isFalse (fun hc => h (by cases hc; rfl))
  | .error _, .ok _ => isFalse (fun hc => by cases hc)
  | .ok _, .error _ => isFalse (fun hc => by cases hc)
  | .ok a, .ok b =>
      if h : a = b then isTrue (by rw [h]) else isFalse (fun hc => h (by cases hc; rfl))

namespace EnergyMarket

/-- A row of the `users` table (shared schema): balances are decimal
columns, stored here as exact rationals. -/
structure User where
  id : String
  walletAddress : String
  energyBalance : ℚ
  ethBalance : ℚ
  totalEarnings : ℚ
  isNewUser : Bool
deriving DecidableEq, Repr

/-- A row of the `energy_listings` table. -/
structure EnergyListing where
  id : String
  sellerId : String
  amountKWh : ℚ
  ratePerKWh : ℚ
  totalValue : ℚ
  isActive : Bool
  blockchainTxHash : Option String
  blockchainListingId : Option Int := none
deriving DecidableEq, Repr

/-- A row of the `transactions` table. -/
structure Transaction where
  id : String
  buyerId : String
  sellerId : String
  listingId : String
  amountKWh : ℚ
  ratePerKWh : ℚ
  totalCost : ℚ
  transactionType : String
  blockchainTxHash : String
  status : String
deriving DecidableEq, Repr

/-- The persistent state behind `DatabaseStorage` (the `storage` export
actually used by the routes): the three entity tables. -/
structure Storage where
  users : List User
  listings : List EnergyListing
  txns : List Transaction
deriving DecidableEq, Repr

/-- Embedding of `DatabaseStorage.getUser`: select by primary key. -/
def getUser (st : Storage) (id : String) : Option User :=
  st.users.find? (fun u => u.id == id)

/-- Embedding of `DatabaseStorage.getUserByWalletAddress`: `eq(users.walletAddress, walletAddress)` —
an exact, case-sensitive string comparison (unlike the unused `MemStorage`
variant, which lowercases both sides). -/
def getUserByWalletAddress (st : Storage) (walletAddress : String) : Option User :=
  st.users.find? (fun u => u.walletAddress == walletAddress)

/-- Embedding of `DatabaseStorage.createUser`: insert a fully formed row. -/
def createUser (st : Storage) (u : User) : Storage :=
  { st with users := st.users ++ [u] }

/-- The subset of `User` columns the routes ever pass to `updateUser`. -/
structure UserUpdates where
  ethBalance? : Option ℚ := none
  energyBalance? : Option ℚ := none
  totalEarnings? : Option ℚ := none
deriving DecidableEq, Repr

/-- Merge semantics of `{ ...user, ...updates }` / drizzle `set`. -/
def applyUserUpdates (u : User) (up : UserUpdates) : User :=
  { u with
    ethBalance := up.ethBalance?.getD u.ethBalance
    energyBalance := up.energyBalance?.getD u.energyBalance
    totalEarnings := up.totalEarnings?.getD u.totalEarnings }

/-- Embedding of `DatabaseStorage.updateUser`: update the row with the given id. -/
def updateUser (st : Storage) (id : String) (up : UserUpdates) : Storage :=
  { st with users := st.users.map (fun u => if u.id == id then applyUserUpdates u up else u) }

/-- Embedding of `DatabaseStorage.getEnergyListing`. -/
def getEnergyListing (st : Storage) (id : String) : Option EnergyListing :=
  st.listings.find? (fun l => l.id == id)

/-- Embedding of `DatabaseStorage.getActiveEnergyListings`: `eq(isActive, true)`. -/
def getActiveEnergyListings (st : Storage) : List EnergyListing :=
  st.listings.filter (fun l => l.isActive)

/-- Embedding of `DatabaseStorage.createEnergyListing`. -/
def createEnergyListing (st : Storage) (l : EnergyListing) : Storage :=
  { st with listings := st.listings ++ [l] }

/-- The subset of `EnergyListing` columns the routes ever pass to
`updateEnergyListing`. -/
structure ListingUpdates where
  amountKWh? : Option ℚ := none
  totalValue? : Option ℚ := none
deriving DecidableEq, Repr

/-- Merge semantics for listing updates. -/
def applyListingUpdates (l : EnergyListing) (up : ListingUpdates) : EnergyListing :=
  { l with
    amountKWh := up.amountKWh?.getD l.amountKWh
    totalValue := up.totalValue?.getD l.totalValue }

/-- Embedding of `DatabaseStorage.updateEnergyListing`. -/
def updateEnergyListing (st : Storage) (id : String) (up : ListingUpdates) : Storage :=
  { st with
    listings := st.listings.map (fun l => if l.id == id then applyListingUpdates l up else l) }

/-- Embedding of `DatabaseStorage.deactivateEnergyListing`: `set({ isActive: false })` —
note it changes nothing else; in particular `amountKWh` keeps its value. -/
def deactivateEnergyListing (st : Storage) (id : String) : Storage :=
  { st with
    listings := st.listings.map (fun l => if l.id == id then { l with isActive := false } else l) }

/-- Embedding of `DatabaseStorage.createTransaction`. -/
def createTransaction (st : Storage) (t : Transaction) : Storage :=
  { st with txns := st.txns ++ [t] }

/-! ### BlockchainService (`src/server/services/blockchain.ts`)

Each method's external interaction is an oracle argument; what the Lean
function computes is the method's own control flow around that call. -/

/-- Outcome of an awaited external chain call: it either resolved with a
transaction hash or rejected (threw). -/
inductive ChainCall where
  | resolved (hash : String)
  | rejected
deriving DecidableEq, Repr

/-- Embedding of `BlockchainService.buyEnergy` (lines 181–266): whatever the inner call
does, the `catch` block swallows the error and returns a fresh mock hash
("Falling back to mock transaction"), so the promise never rejects. -/
def svcBuyEnergy (call : ChainCall) (mockHash : String) : String :=
  match call with
  | .resolved h => h
  | .rejected => mockHash

/-- Embedding of `BlockchainService.getEthBalance` (lines 101–109): on any provider
error the `catch` returns `0` instead of rethrowing. -/
def svcGetEthBalance (result : Option ℚ) : ℚ :=
  result.getD 0

/-- Embedding of `BlockchainService.getEnergyBalance` (lines 111–126): without an
initialized token contract it returns the mock constant `1000`; with one,
a query error is also caught and replaced by `1000`. -/
def svcGetEnergyBalance (contractInit : Bool) (result : Option ℚ) : ℚ :=
  if contractInit then result.getD 1000 else 1000

/-- JavaScript's `toLowerCase`, written structurally over the character
list so that concrete runs compute. -/
def lowerStr (s : String) : String :=
  String.mk (s.data.map Char.toLower)

/-- Embedding of `BlockchainService.verifySignature` (lines 87–99): recover the signer
(`none` models an ethers throw, caught and turned into `false`) and
compare to the claimed address case-insensitively. -/
def svcVerifySignature (recovered : Option String) (address : String) : Bool :=
  match recovered with
  | some r => lowerStr r == lowerStr address
  | none => false

/-- Embedding of `BlockchainService.cancelListing` (lines 268–283): always returns a
mock hash. -/
def svcCancelListing (mockHash : String) : String :=
  mockHash

/-- Embedding of `BlockchainService.createListing` (lines 152–179): both branches of
the `try` return a mock hash; nothing in them throws. -/
def svcCreateListing (mockHash : String) : String :=
  mockHash

/-! ### POST /api/transactions/buy (`routes.ts` lines 574–670)

The handler body is a read–validate phase followed, after the awaited
external settlement call, by a commit phase; all commit values are the
ones captured during validation (JavaScript closure variables).  We embed
the two phases separately — the awaited call between them is exactly the
point at which Node may interleave another request — and the route itself
as their sequential composition. -/

/-- Body of a buy request.  `listingId`/`amount` are `none` when the JSON
field is absent or falsy (the handler's `!listingId || !amount` guard);
a present decimal string is modelled by the rational it denotes. -/
structure BuyRequest where
  listingId : Option String
  amount : Option ℚ
  blockchainTxHash : Option String
deriving DecidableEq, Repr

/-- The typed error responses of the buy route. -/
inductive BuyError where
  | missingFields
  | listingNotFoundOrInactive
  | userNotFound
  | insufficientEth
  | insufficientEnergy
deriving DecidableEq, Repr

/-- Everything the handler has read and computed by the time it issues the
external settlement call: the closure variables used by the commit code. -/
structure BuyPlan where
  buyer : User
  seller : User
  listing : EnergyListing
  listingId : String
  amountNum : ℚ
  rateNum : ℚ
  totalCost : ℚ
  buyerEthBalance : ℚ
  listingAmount : ℚ
  preHash : Option String
deriving DecidableEq, Repr

/-- The read–validate phase of the buy route (lines 576–613): field
presence, listing lookup and `isActive`, buyer/seller lookup, ETH-balance
check, listing-amount check — in source order.  Note there is no
`buyer ≠ seller` check and no positivity check on the amount. -/
def buyValidate (st : Storage) (sessionUserId : String) (req : BuyRequest) :
    Except BuyError BuyPlan :=
  match req.listingId, req.amount with
  | some lid, some amt =>
      (match getEnergyListing st lid with
       | none => Except.error BuyError.listingNotFoundOrInactive
       | some listing =>
           if listing.isActive then
             match getUser st sessionUserId, getUser st listing.sellerId with
             | some buyer, some seller =>
                 let totalCost := amt * listing.ratePerKWh
                 if buyer.ethBalance < totalCost then
                   Except.error BuyError.insufficientEth
                 else if listing.amountKWh < amt then
                   Except.error BuyError.insufficientEnergy
                 else
                   Except.ok
                     { buyer := buyer, seller := seller, listing := listing
                       listingId := lid, amountNum := amt
                       rateNum := listing.ratePerKWh, totalCost := totalCost
                       buyerEthBalance := buyer.ethBalance
                       listingAmount := listing.amountKWh
                       preHash := req.blockchainTxHash }
             | _, _ => Except.error BuyError.userNotFound
           else Except.error BuyError.listingNotFoundOrInactive)
  | _, _ => Except.error BuyError.missingFields

/-- The Transaction row the commit phase inserts (lines 626–636): its
status is the literal `"completed"`, whatever the external call did. -/
def buyTransactionRow (plan : BuyPlan) (buyerId txHash txnId : String) : Transaction :=
  { id := txnId, buyerId := buyerId, sellerId := plan.listing.sellerId
    listingId := plan.listingId, amountKWh := plan.amountNum
    ratePerKWh := plan.rateNum, totalCost := plan.totalCost
    transactionType := "buy", blockchainTxHash := txHash, status := "completed" }

/-- The commit phase of the buy route (lines 626–663): insert the
transaction row, update buyer, update seller, then shrink or deactivate
the listing — all from the values captured in the plan. -/
def buyCommit (st : Storage) (sessionUserId : String) (plan : BuyPlan)
    (txHash txnId : String) : Storage :=
  let st1 := createTransaction st (buyTransactionRow plan sessionUserId txHash txnId)
  let st2 := updateUser st1 sessionUserId
    { ethBalance? := some (plan.buyerEthBalance - plan.totalCost)
      energyBalance? := some (plan.buyer.energyBalance + plan.amountNum) }
  let st3 := updateUser st2 plan.listing.sellerId
    { ethBalance? := some (plan.seller.ethBalance + plan.totalCost)
      energyBalance? := some (plan.seller.energyBalance - plan.amountNum)
      totalEarnings? := some (plan.seller.totalEarnings + plan.totalCost) }
  let remainingAmount := plan.listingAmount - plan.amountNum
  if remainingAmount ≤ 0 then
    deactivateEnergyListing st3 plan.listingId
  else
    updateEnergyListing st3 plan.listingId
      { amountKWh? := some remainingAmount
        totalValue? := some (remainingAmount * plan.rateNum) }

/-- The whole buy route run without interleaving: validate, resolve the
settlement hash (client-supplied hash short-circuits the external call,
line 616–623), commit.  `call` is the external call's outcome, `mockHash`
the random fallback hash `svcBuyEnergy` fabricates on failure. -/
def buyHandler (st : Storage) (sessionUserId : String) (req : BuyRequest)
    (call : ChainCall) (mockHash txnId : String) :
    Except BuyError Transaction × Storage :=
  match buyValidate st sessionUserId req with
  | .error e => (.error e, st)
  | .ok plan =>
      let txHash := plan.preHash.getD (svcBuyEnergy call mockHash)
      let row := buyTransactionRow plan sessionUserId txHash txnId
      (.ok row, buyCommit st sessionUserId plan txHash txnId)

/-! ### DELETE /api/listings/:id (`routes.ts` lines 501–529) -/

/-- The responses of the cancel route. -/
inductive CancelResult where
  | notFound
  | unauthorized
  | cancelled
deriving DecidableEq, Repr

/-- The cancel-listing route: lookup, ownership check against the session
id, an external cancel call that never fails (`svcCancelListing`), then
`deactivateEnergyListing`.  There is no `isActive` precondition, and the
deactivation leaves `amountKWh` as it was. -/
def cancelHandler (st : Storage) (sessionUserId : String) (id : String) :
    CancelResult × Storage :=
  match getEnergyListing st id with
  | none => (CancelResult.notFound, st)
  | some listing =>
      if listing.sellerId ≠ sessionUserId then
        (CancelResult.unauthorized, st)
      else
        (CancelResult.cancelled, deactivateEnergyListing st id)

/-! ### POST /api/listings (`routes.ts` lines 444–499) -/

/-- Body of a create-listing request, after zod validation of the insert
schema (which checks shapes only — no relation between `totalValue` and
`amountKWh * ratePerKWh` is enforced anywhere). -/
structure CreateListingRequest where
  sellerId : String
  amountKWh : ℚ
  ratePerKWh : ℚ
  totalValue : ℚ
  isActive : Bool
  blockchainTxHash : Option String
  blockchainListingId : Option Int := none
deriving DecidableEq, Repr

/-- The typed error responses of the create-listing route. -/
inductive CreateListingError where
  | forbiddenSeller
  | userNotFound
  | insufficientEnergy
deriving DecidableEq, Repr

/-- The create-listing route: session/seller match, seller lookup, energy
balance check, hash resolution (client hash or mock from
`svcCreateListing`), then insert.  The stored `totalValue` is the
client-supplied field, copied verbatim. -/
def createListingHandler (st : Storage) (sessionUserId : String)
    (req : CreateListingRequest) (mockHash newId : String) :
    Except CreateListingError EnergyListing × Storage :=
  if req.sellerId ≠ sessionUserId then
    (.error CreateListingError.forbiddenSeller, st)
  else
    match getUser st req.sellerId with
    | none => (.error CreateListingError.userNotFound, st)
    | some user =>
        if user.energyBalance < req.amountKWh then
          (.error CreateListingError.insufficientEnergy, st)
        else
          let txHash := req.blockchainTxHash.getD (svcCreateListing mockHash)
          let listing : EnergyListing :=
            { id := newId, sellerId := req.sellerId, amountKWh := req.amountKWh
              ratePerKWh := req.ratePerKWh, totalValue := req.totalValue
              isActive := req.isActive, blockchainTxHash := some txHash
              blockchainListingId := req.blockchainListingId }
          (.ok listing, createEnergyListing st listing)

/-! ### GET /api/users/:walletAddress (`routes.ts` lines 378–403)

The balance refresh: both service getters are total (they replace any
failure by a fallback constant), so the handler always overwrites the
stored balance fields with whatever they returned. -/

/-- The user-refresh route: look the user up, query both external
balances (`ethResult`/`energyResult` are `none` when the provider call
errors, `contractInit` is whether the token contract was configured), and
write the results over the stored fields. -/
def getUserRouteHandler (st : Storage) (walletAddress : String)
    (ethResult : Option ℚ) (contractInit : Bool) (energyResult : Option ℚ) :
    Option User × Storage :=
  match getUserByWalletAddress st walletAddress with
  | none => (none, st)
  | some user =>
      let ethBalance := svcGetEthBalance ethResult
      let energyBalance := svcGetEnergyBalance contractInit energyResult
      let st' := updateUser st user.id
        { ethBalance? := some ethBalance, energyBalance? := some energyBalance }
      (getUser st' user.id, st')

/-! ### Authentication (`routes.ts` lines 106–375) -/

/-- The express-session data the routes read and write. -/
structure SessionState where
  userId : Option String
  walletAddress : Option String
  nonce : Option String
deriving DecidableEq, Repr

/-- The structured result of `parseSiweMessage` (lines 36–96). -/
structure SiweMessage where
  domain : String
  address : String
  statement : String
  uri : String
  version : String
  chainId : Int
  nonce : String
  issuedAt : String
deriving DecidableEq, Repr

/-- The error responses of POST /api/auth/verify, one per exit point. -/
inductive VerifyError where
  | missingFields
  | noNonce
  | parseFailed
  | domainMismatch
  | uriMismatch
  | chainMismatch
  | nonceMismatch
  | sigInvalid
  | authFailed
deriving DecidableEq, Repr

/-- The user lookup-or-create block shared verbatim by the verify and
connect handlers (lines 217–257 and 334–368): find the user by the
(unnormalized) wallet address; if absent, create one with the 1000 kWh
initial grant (the on-chain mint is advisory and touches no local state);
if present, overwrite both balance fields with the external getters'
results and re-read the row. -/
def authFindOrRefreshUser (st : Storage) (walletAddress : String)
    (contractInit : Bool) (ethResult energyResult : Option ℚ)
    (newUserId : String) : User × Storage :=
  match getUserByWalletAddress st walletAddress with
  | none =>
      let user : User :=
        { id := newUserId, walletAddress := walletAddress, energyBalance := 1000
          ethBalance := 0, totalEarnings := 0, isNewUser := true }
      (user, createUser st user)
  | some u =>
      let ethBalance := svcGetEthBalance ethResult
      let energyBalance := svcGetEnergyBalance contractInit energyResult
      let st' := updateUser st u.id
        { ethBalance? := some ethBalance, energyBalance? := some energyBalance }
      ((getUser st' u.id).getD u, st')

/-- POST /api/auth/verify (lines 114–290).  `messagePresent`/`sigPresent`
are the truthiness of the body fields, `parsed` the result of
`parseSiweMessage` on the raw message text, `host` the `Host` header,
`recovered` the address `ethers.verifyMessage` recovers (`none` = it
threw, landing in the outer catch).  On success the session is
regenerated: a fresh session carrying only the user binding — in
particular no nonce.  On every error path the session is returned
untouched, nonce included. -/
def verifyHandler (st : Storage) (sess : SessionState)
    (messagePresent sigPresent : Bool) (parsed : Option SiweMessage)
    (host : Option String) (protocol : String) (recovered : Option String)
    (contractInit : Bool) (ethResult energyResult : Option ℚ)
    (newUserId : String) :
    Except VerifyError User × Storage × SessionState :=
  if ¬messagePresent ∨ ¬sigPresent then
    (.error VerifyError.missingFields, st, sess)
  else
    match sess.nonce with
    | none => (.error VerifyError.noNonce, st, sess)
    | some sessionNonce =>
        match parsed with
        | none => (.error VerifyError.parseFailed, st, sess)
        | some m =>
            if m.domain ≠ host.getD "localhost" then
              (.error VerifyError.domainMismatch, st, sess)
            else if m.uri ≠ protocol ++ "://" ++ host.getD "localhost" then
              (.error VerifyError.uriMismatch, st, sess)
            else if m.chainId ≠ 11155111 then
              (.error VerifyError.chainMismatch, st, sess)
            else if m.nonce ≠ sessionNonce then
              (.error VerifyError.nonceMismatch, st, sess)
            else
              match recovered with
              | none => (.error VerifyError.authFailed, st, sess)
              | some r =>
                  if lowerStr r ≠ lowerStr m.address then
                    (.error VerifyError.sigInvalid, st, sess)
                  else
                    (.ok (authFindOrRefreshUser st m.address
                        contractInit ethResult energyResult newUserId).1,
                      (authFindOrRefreshUser st m.address
                        contractInit ethResult energyResult newUserId).2,
                      { userId := some (authFindOrRefreshUser st m.address
                          contractInit ethResult energyResult newUserId).1.id
                        walletAddress := some m.address
                        nonce := none })

/-- The error responses of the legacy POST /api/auth/connect. -/
inductive ConnectError where
  | missingFields
  | invalidSignature
deriving DecidableEq, Repr

/-- POST /api/auth/connect (lines 315–375).  It takes the wallet address,
message and signature from the request body, checks only
`svcVerifySignature`, and never reads or writes the session — `sess` is
in scope for the handler but unused, so it is returned unchanged. -/
def connectHandler (st : Storage) (sess : SessionState)
    (walletAddress message signature : Option String)
    (recovered : Option String) (contractInit : Bool)
    (ethResult energyResult : Option ℚ) (newUserId : String) :
    Except ConnectError User × Storage × SessionState :=
  match walletAddress, message, signature with
  | some wa, some _, some _ =>
      if svcVerifySignature recovered wa then
        let (user, st') := authFindOrRefreshUser st wa
          contractInit ethResult energyResult newUserId
        (.ok user, st', sess)
      else
        (.error ConnectError.invalidSignature, st, sess)
  | _, _, _ => (.error ConnectError.missingFields, st, sess)

/-! ### Helper lemmas on the list-backed tables -/

/-- List `find?` commutes with mapping a function that does not change whether
an element satisfies the predicate (row updates keep the key column). -/
theorem find?_map_congr {α : Type} (p : α → Bool) (f : α → α)
    (hf : ∀ a, p (f a) = p a) :
    ∀ l : List α, (l.map f).find? p = (l.find? p).map f := by
  intro l
  induction l with
  | nil => rfl
  | cons a l ih =>
      by_cases h : p a = true
      · simp [List.find?, hf, h]
      · simp only [Bool.not_eq_true] at h
        simp [List.find?, hf, h, ih]

/-- List `find?` over an append skips a first block containing no match. -/
theorem find?_append_of_none {α : Type} {p : α → Bool} {l₁ : List α}
    (h : l₁.find? p = none) (l₂ : List α) :
    (l₁ ++ l₂).find? p = l₂.find? p := by
  induction l₁ with
  | nil => rfl
  | cons a l ih =>
      rw [List.find?_cons] at h
      cases hp : p a with
      | true => simp [hp] at h
      | false =>
          simp only [hp] at h
          simpa [List.find?, hp] using ih h

/-- Row updates keep primary keys, so user lookup commutes with
`updateUser` up to applying the update to the found row. -/
@[simp] theorem getUser_updateUser (st : Storage) (i : String) (up : UserUpdates) (j : String) :
    getUser (updateUser st i up) j =
      (getUser st j).map (fun u => if u.id == i then applyUserUpdates u up else u) := by
  refine find?_map_congr _ _ (fun a => ?_) st.users
  by_cases h : (a.id == i) = true <;> simp [h, applyUserUpdates]

/-- Listing lookup commutes with `updateEnergyListing`. -/
@[simp] theorem getEnergyListing_updateEnergyListing (st : Storage) (i : String)
    (up : ListingUpdates) (j : String) :
    getEnergyListing (updateEnergyListing st i up) j =
      (getEnergyListing st j).map
        (fun l => if l.id == i then applyListingUpdates l up else l) := by
  refine find?_map_congr _ _ (fun a => ?_) st.listings
  by_cases h : (a.id == i) = true <;> simp [h, applyListingUpdates]

/-- Listing lookup commutes with `deactivateEnergyListing`. -/
@[simp] theorem getEnergyListing_deactivateEnergyListing (st : Storage) (i : String) (j : String) :
    getEnergyListing (deactivateEnergyListing st i) j =
      (getEnergyListing st j).map
        (fun l => if l.id == i then { l with isActive := false } else l) := by
  refine find?_map_congr _ _ (fun a => ?_) st.listings
  by_cases h : (a.id == i) = true <;> simp [h]

/-- User lookup ignores transaction inserts. -/
@[simp] theorem getUser_createTransaction (st : Storage) (t : Transaction) (j : String) :
    getUser (createTransaction st t) j = getUser st j := rfl

/-- User lookup ignores listing updates. -/
@[simp] theorem getUser_updateEnergyListing (st : Storage) (i : String)
    (up : ListingUpdates) (j : String) :
    getUser (updateEnergyListing st i up) j = getUser st j := rfl

/-- User lookup ignores listing deactivation. -/
@[simp] theorem getUser_deactivateEnergyListing (st : Storage) (i : String) (j : String) :
    getUser (deactivateEnergyListing st i) j = getUser st j := rfl

/-- Wallet-keyed user lookup ignores transaction inserts. -/
@[simp] theorem getUserByWalletAddress_createTransaction (st : Storage) (t : Transaction)
    (w : String) :
    getUserByWalletAddress (createTransaction st t) w = getUserByWalletAddress st w := rfl

/-- Listing lookup ignores transaction inserts. -/
@[simp] theorem getEnergyListing_createTransaction (st : Storage) (t : Transaction) (j : String) :
    getEnergyListing (createTransaction st t) j = getEnergyListing st j := rfl

/-- Listing lookup ignores user updates. -/
@[simp] theorem getEnergyListing_updateUser (st : Storage) (i : String) (up : UserUpdates)
    (j : String) :
    getEnergyListing (updateUser st i up) j = getEnergyListing st j := rfl

/-- The transaction table after an insert. -/
@[simp] theorem txns_createTransaction (st : Storage) (t : Transaction) :
    (createTransaction st t).txns = st.txns ++ [t] := rfl

/-- User updates do not touch the transaction table. -/
@[simp] theorem txns_updateUser (st : Storage) (i : String) (up : UserUpdates) :
    (updateUser st i up).txns = st.txns := rfl

/-- Listing updates do not touch the transaction table. -/
@[simp] theorem txns_updateEnergyListing (st : Storage) (i : String) (up : ListingUpdates) :
    (updateEnergyListing st i up).txns = st.txns := rfl

/-- Listing deactivation does not touch the transaction table. -/
@[simp] theorem txns_deactivateEnergyListing (st : Storage) (i : String) :
    (deactivateEnergyListing st i).txns = st.txns := rfl

/-! ### Concrete fixtures used by witnesses and counterexamples -/

/-- A seller with energy to sell. -/
def alice : User :=
  { id := "alice", walletAddress := "0xaaa", energyBalance := 500
    ethBalance := 10, totalEarnings := 0, isNewUser := false }

/-- A buyer holding some ETH. -/
def bob : User :=
  { id := "bob", walletAddress := "0xbbb", energyBalance := 0
    ethBalance := 10, totalEarnings := 0, isNewUser := false }

/-- A second buyer holding some ETH. -/
def carl : User :=
  { id := "carl", walletAddress := "0xccc", energyBalance := 0
    ethBalance := 10, totalEarnings := 0, isNewUser := false }

/-- Alice's active listing: 100 kWh at 0.1 ETH/kWh. -/
def listing1 : EnergyListing :=
  { id := "L1", sellerId := "alice", amountKWh := 100, ratePerKWh := 1/10
    totalValue := 10, isActive := true, blockchainTxHash := none }

/-- The baseline marketplace state. -/
def st0 : Storage :=
  { users := [alice, bob, carl], listings := [listing1], txns := [] }

/-- Lookup of `listing1` in the baseline state. -/
theorem st0_getListing : getEnergyListing st0 "L1" = some listing1 := by
  simp [getEnergyListing, st0, List.find?, listing1]

/-- Lookup of alice in the baseline state. -/
theorem st0_getUser_alice : getUser st0 "alice" = some alice := by
  simp [getUser, st0, List.find?, alice, bob, carl]

/-- Lookup of bob in the baseline state. -/
theorem st0_getUser_bob : getUser st0 "bob" = some bob := by
  simp [getUser, st0, List.find?, alice, bob, carl]

/-- Lookup of carl in the baseline state. -/
theorem st0_getUser_carl : getUser st0 "carl" = some carl := by
  simp [getUser, st0, List.find?, alice, bob, carl]

/-- A pre-auth session holding the issued nonce `n1`. -/
def sess0 : SessionState :=
  { userId := none, walletAddress := none, nonce := some "n1" }

/-- A SIWE message matching the server's expectations for `sess0`
(host `localhost:5000`, http, Sepolia chain id, nonce `n1`). -/
def msg0 : SiweMessage :=
  { domain := "localhost:5000", address := "0xaaa"
    statement := "Sign in with Ethereum to EnergyMarket"
    uri := "http://localhost:5000", version := "1", chainId := 11155111
    nonce := "n1", issuedAt := "2026-01-01T00:00:00Z" }

/-- The C1 scenario's request: bob buys 50 kWh from `listing1`, with no
pre-confirmed settlement reference. -/
def c1req : BuyRequest :=
  { listingId := some "L1", amount := some 50, blockchainTxHash := none }

/-- The plan the validation phase produces for `c1req` against `st0`. -/
def c1plan : BuyPlan :=
  { buyer := bob, seller := alice, listing := listing1, listingId := "L1"
    amountNum := 50, rateNum := 1/10, totalCost := 5
    buyerEthBalance := 10, listingAmount := 100, preHash := none }

/-- Validation accepts the C1 scenario and captures `c1plan`. -/
theorem c1validate : buyValidate st0 "bob" c1req = Except.ok c1plan := by
  simp only [buyValidate, c1req, st0_getListing, st0_getUser_bob, st0_getUser_alice,
    listing1]
  norm_num [bob, alice, c1plan, listing1]

/-- The C1 run with the external call rejected: the handler still answers
with the transaction row and commits the plan. -/
theorem c1run :
    buyHandler st0 "bob" c1req ChainCall.rejected "0xmock" "T1" =
      (Except.ok (buyTransactionRow c1plan "bob" "0xmock" "T1"),
        buyCommit st0 "bob" c1plan "0xmock" "T1") := by
  simp [buyHandler, c1validate, svcBuyEnergy, c1plan]

/-- The C1 commit, written as the explicit chain of storage operations
with the arithmetic evaluated. -/
theorem c1commit_eq :
    buyCommit st0 "bob" c1plan "0xmock" "T1" =
      updateEnergyListing
        (updateUser
          (updateUser (createTransaction st0 (buyTransactionRow c1plan "bob" "0xmock" "T1"))
            "bob" { ethBalance? := some 5, energyBalance? := some 50 })
          "alice" { ethBalance? := some 15, energyBalance? := some 450, totalEarnings? := some 5 })
        "L1" { amountKWh? := some 50, totalValue? := some 5 } := by
  simp only [buyCommit, c1plan, listing1, bob, alice]
  norm_num

/-- C1.  The claim says a purchase whose external settlement call fails
must change nothing and record no Transaction.  The code does the
opposite: `BlockchainService.buyEnergy` swallows the rejection and
returns a mock hash (`svcBuyEnergy`), so the route records a
`"completed"` Transaction carrying the fabricated hash and applies every
balance and listing mutation.  Concretely: bob buys 50 kWh from
`listing1` with no pre-confirmed hash and a rejected external call — a
completed Transaction appears and both balances move. -/
theorem buy_external_failure_commits_completed :
    (buyHandler st0 "bob" c1req ChainCall.rejected "0xmock" "T1").1.toOption.map
        (fun t => (t.status, t.blockchainTxHash)) = some ("completed", "0xmock") ∧
    (buyHandler st0 "bob" c1req ChainCall.rejected "0xmock" "T1").2.txns.length = 1 ∧
    getUser (buyHandler st0 "bob" c1req ChainCall.rejected "0xmock" "T1").2 "bob" =
      some { bob with ethBalance := 5, energyBalance := 50 } ∧
    getUser (buyHandler st0 "bob" c1req ChainCall.rejected "0xmock" "T1").2 "alice" =
      some { alice with ethBalance := 15, energyBalance := 450, totalEarnings := 5 } ∧
    bob.ethBalance = 10 ∧ alice.ethBalance = 10 := by
  rw [c1run, c1commit_eq]
  refine ⟨rfl, ?_, ?_, ?_, rfl, rfl⟩
  · simp [st0]
  · simp [st0_getUser_bob, applyUserUpdates, bob]
  · simp [st0_getUser_alice, applyUserUpdates, alice]

/-- C6.  The claim says a failed external balance query leaves the stored
fields untouched.  The code's getters never fail: `getEthBalance` maps a
provider error to `0` and `getEnergyBalance` maps a missing contract or
query error to `1000`, and the route then writes those constants over the
stored row.  Concretely: refreshing alice (ethBalance 10, energyBalance
500) with a failing provider and no configured contract rewrites her row
to ethBalance 0, energyBalance 1000. -/
theorem refresh_failure_overwrites_balances :
    getUser (getUserRouteHandler st0 "0xaaa" none false none).2 "alice" =
      some { alice with ethBalance := 0, energyBalance := 1000 } ∧
    alice.ethBalance = 10 ∧ alice.energyBalance = 500 := by
  norm_num [getUserRouteHandler, getUserByWalletAddress, getUser, updateUser,
    applyUserUpdates, svcGetEthBalance, svcGetEnergyBalance,
    st0, alice, bob, carl, listing1, List.find?]

/-- C7 counterexample.  The claim says a successful cancellation zeroes
the listing's remaining `amountKWh`.  Alice cancels her own active
listing of 100 kWh: the route succeeds and deactivates it, but
`DatabaseStorage.deactivateEnergyListing` only sets `isActive: false` —
the listing retains `amountKWh = 100`, not 0. -/
theorem cancel_keeps_amount_nonzero :
    (cancelHandler st0 "alice" "L1").1 = CancelResult.cancelled ∧
    getEnergyListing (cancelHandler st0 "alice" "L1").2 "L1" =
      some { listing1 with isActive := false } ∧
    listing1.amountKWh = 100 := by
  refine ⟨?_, ?_, rfl⟩ <;>
    simp [cancelHandler, st0_getListing, listing1]

/-- C7 (amended).  Cancellation succeeds exactly when the listing exists
and the authenticated requester is the owning seller — active or not —
and on success the listing merely becomes inactive, its remaining
`amountKWh` left unchanged; a non-owner gets an authorization error and
the state is untouched. -/
theorem cancel_listing_behavior (st : Storage) (uid lid : String) (l : EnergyListing)
    (hfound : getEnergyListing st lid = some l) :
    (l.sellerId = uid →
      cancelHandler st uid lid = (CancelResult.cancelled, deactivateEnergyListing st lid) ∧
      getEnergyListing (deactivateEnergyListing st lid) lid =
        some { l with isActive := false }) ∧
    (l.sellerId ≠ uid →
      cancelHandler st uid lid = (CancelResult.unauthorized, st)) := by
  have hfound' : List.find? (fun x => x.id == lid) st.listings = some l := hfound
  have hid : (l.id == lid) = true := by simpa using List.find?_some hfound'
  constructor
  · intro h
    constructor
    · simp [cancelHandler, hfound, h]
    · rw [getEnergyListing_deactivateEnergyListing, hfound, Option.map_some']
      simp [hid]
  · intro h
    simp [cancelHandler, hfound, h]

/-- C7 witness: alice cancelling her own listing in the baseline state. -/
theorem cancel_listing_behavior_witness :
    cancelHandler st0 "alice" "L1" =
      (CancelResult.cancelled, deactivateEnergyListing st0 "L1") :=
  ((cancel_listing_behavior st0 "alice" "L1" listing1 st0_getListing).1 (by simp [listing1])).1

/-- The C8 counterexample's request: amount 2, rate 3, but a
client-chosen `totalValue` of 7. -/
def c8req : CreateListingRequest :=
  { sellerId := "alice", amountKWh := 2, ratePerKWh := 3, totalValue := 7
    isActive := true, blockchainTxHash := none }

/-- The listing row the C8 request produces. -/
def c8listing : EnergyListing :=
  { id := "L9", sellerId := "alice", amountKWh := 2, ratePerKWh := 3, totalValue := 7
    isActive := true, blockchainTxHash := some "0xmock" }

/-- C8 counterexample.  The claim says every listing visible right after
creation satisfies `totalValue = amountKWh × ratePerKWh`.  The route
copies the client-supplied `totalValue` verbatim and the insert schema
enforces no cross-field relation, so a request with amount 2, rate 3 and
`totalValue` 7 produces a visible active listing with `totalValue` 7
whereas the product is 6. -/
theorem create_listing_total_value_client_controlled :
    (createListingHandler st0 "alice" c8req "0xmock" "L9").1.toOption.map
        (fun l => l.totalValue) = some 7 ∧
    (getActiveEnergyListings (createListingHandler st0 "alice" c8req "0xmock" "L9").2).map
        (fun l => (l.id, l.totalValue, l.amountKWh * l.ratePerKWh)) =
      [("L1", 10, 10), ("L9", 7, 6)] ∧
    (7 : ℚ) ≠ 6 := by
  have hrun : createListingHandler st0 "alice" c8req "0xmock" "L9" =
      (Except.ok c8listing, createEnergyListing st0 c8listing) := by
    simp only [createListingHandler, c8req, st0_getUser_alice]
    norm_num [alice, c8listing, svcCreateListing]
  rw [hrun]
  refine ⟨rfl, ?_, by norm_num⟩
  norm_num [getActiveEnergyListings, createEnergyListing, st0, listing1, c8listing]

/-- C8 (amended).  The stored `totalValue` is whatever the client sent:
when (and only when) the client supplies `totalValue = amountKWh ×
ratePerKWh`, the listing visible immediately after a successful creation
satisfies the product invariant. -/
theorem create_listing_total_value_consistent (st : Storage) (uid : String)
    (req : CreateListingRequest) (mock newId : String) (user : User)
    (hseller : req.sellerId = uid)
    (huser : getUser st req.sellerId = some user)
    (hbal : ¬ user.energyBalance < req.amountKWh)
    (hconsistent : req.totalValue = req.amountKWh * req.ratePerKWh)
    (hactive : req.isActive = true) :
    ∃ l, (createListingHandler st uid req mock newId).1 = Except.ok l ∧
      l.totalValue = l.amountKWh * l.ratePerKWh ∧
      l ∈ getActiveEnergyListings (createListingHandler st uid req mock newId).2 := by
  subst hseller
  refine ⟨{ id := newId, sellerId := req.sellerId, amountKWh := req.amountKWh
            ratePerKWh := req.ratePerKWh, totalValue := req.totalValue
            isActive := req.isActive
            blockchainTxHash := some (req.blockchainTxHash.getD (svcCreateListing mock))
            blockchainListingId := req.blockchainListingId },
          ?_, by simpa using hconsistent, ?_⟩ <;>
    simp [createListingHandler, huser, hbal, hactive,
      getActiveEnergyListings, createEnergyListing, List.mem_filter]

/-- C8 witness: alice lists 2 kWh at rate 3 with a consistent
`totalValue` of 6. -/
theorem create_listing_total_value_consistent_witness :
    ∃ l, (createListingHandler st0 "alice"
            { sellerId := "alice", amountKWh := 2, ratePerKWh := 3, totalValue := 6
              isActive := true, blockchainTxHash := none } "0xmock" "L9").1 = Except.ok l ∧
      l.totalValue = l.amountKWh * l.ratePerKWh ∧
      l ∈ getActiveEnergyListings (createListingHandler st0 "alice"
            { sellerId := "alice", amountKWh := 2, ratePerKWh := 3, totalValue := 6
              isActive := true, blockchainTxHash := none } "0xmock" "L9").2 :=
  create_listing_total_value_consistent st0 "alice" _ "0xmock" "L9" alice rfl
    st0_getUser_alice (by norm_num [alice]) (by norm_num) rfl

/-- The C3 scenario's request: alice buys 50 kWh from her own listing,
with a pre-confirmed settlement hash. -/
def c3req : BuyRequest :=
  { listingId := some "L1", amount := some 50, blockchainTxHash := some "0xpre" }

/-- The plan validation produces for alice's self-purchase. -/
def c3plan : BuyPlan :=
  { buyer := alice, seller := alice, listing := listing1, listingId := "L1"
    amountNum := 50, rateNum := 1/10, totalCost := 5
    buyerEthBalance := 10, listingAmount := 100, preHash := some "0xpre" }

/-- Validation accepts alice buying from herself. -/
theorem c3validate : buyValidate st0 "alice" c3req = Except.ok c3plan := by
  simp only [buyValidate, c3req, st0_getListing, st0_getUser_alice, listing1]
  norm_num [alice, c3plan, listing1]

/-- C3 counterexample.  The claim lists `buyer ≠ seller` among the
checked preconditions, with any violation producing a typed error, no
state change and no Transaction.  The route never compares buyer and
seller: alice purchasing from her own listing is accepted and a
Transaction row whose buyer and seller are both alice is recorded. -/
theorem buy_self_purchase_accepted :
    (buyHandler st0 "alice" c3req ChainCall.rejected "0xmock" "T1").1 =
      Except.ok (buyTransactionRow c3plan "alice" "0xpre" "T1") ∧
    (buyTransactionRow c3plan "alice" "0xpre" "T1").buyerId =
      (buyTransactionRow c3plan "alice" "0xpre" "T1").sellerId ∧
    (buyHandler st0 "alice" c3req ChainCall.rejected "0xmock" "T1").2.txns.length = 1 := by
  have hrun : buyHandler st0 "alice" c3req ChainCall.rejected "0xmock" "T1" =
      (Except.ok (buyTransactionRow c3plan "alice" "0xpre" "T1"),
        buyCommit st0 "alice" c3plan "0xpre" "T1") := by
    simp [buyHandler, c3validate, c3plan]
  rw [hrun]
  refine ⟨rfl, rfl, ?_⟩
  norm_num [buyCommit, c3plan, st0, apply_ite Storage.txns]

/-- C3 (amended).  The preconditions the route actually checks are:
both body fields present and truthy, listing found and active, buyer and
seller rows found, buyer's ethBalance ≥ amount × rate, amount ≤ the
listing's amountKWh — and a violation of any of these yields the
corresponding typed error with the state unchanged (hence no balance
movement and no Transaction row).  `buyer ≠ seller` and `amount > 0` are
not checked. -/
theorem buy_checked_precondition_failures (st : Storage) (uid : String) (req : BuyRequest)
    (call : ChainCall) (mock tid : String) :
    (∀ e, buyValidate st uid req = Except.error e →
      buyHandler st uid req call mock tid = (Except.error e, st)) ∧
    (req.listingId = none ∨ req.amount = none →
      buyValidate st uid req = Except.error BuyError.missingFields) ∧
    (∀ lid amt, req.listingId = some lid → req.amount = some amt →
      (getEnergyListing st lid = none ∨
        (∃ l, getEnergyListing st lid = some l ∧ l.isActive = false)) →
      buyValidate st uid req = Except.error BuyError.listingNotFoundOrInactive) ∧
    (∀ lid amt l, req.listingId = some lid → req.amount = some amt →
      getEnergyListing st lid = some l → l.isActive = true →
      (getUser st uid = none ∨ getUser st l.sellerId = none) →
      buyValidate st uid req = Except.error BuyError.userNotFound) ∧
    (∀ lid amt l buyer seller, req.listingId = some lid → req.amount = some amt →
      getEnergyListing st lid = some l → l.isActive = true →
      getUser st uid = some buyer → getUser st l.sellerId = some seller →
      buyer.ethBalance < amt * l.ratePerKWh →
      buyValidate st uid req = Except.error BuyError.insufficientEth) ∧
    (∀ lid amt l buyer seller, req.listingId = some lid → req.amount = some amt →
      getEnergyListing st lid = some l → l.isActive = true →
      getUser st uid = some buyer → getUser st l.sellerId = some seller →
      ¬ buyer.ethBalance < amt * l.ratePerKWh → l.amountKWh < amt →
      buyValidate st uid req = Except.error BuyError.insufficientEnergy) := by
  refine ⟨?_, ?_, ?_, ?_, ?_, ?_⟩
  · intro e he
    simp [buyHandler, he]
  · rintro (h | h) <;>
      · cases hl : req.listingId <;> cases ha : req.amount <;>
          simp_all [buyValidate]
  · rintro lid amt hl ha (h | ⟨l, hfound, hinact⟩) <;>
      simp [buyValidate, hl, ha, *]
  · rintro lid amt l hl ha hfound hact (h | h) <;>
      simp [buyValidate, hl, ha, hfound, hact, h]
  · intro lid amt l buyer seller hl ha hfound hact hb hs heth
    simp [buyValidate, hl, ha, hfound, hact, hb, hs, heth]
  · intro lid amt l buyer seller hl ha hfound hact hb hs heth hamt
    simp [buyValidate, hl, ha, hfound, hact, hb, hs, heth, hamt]

/-- C3 witness: a request with both fields missing is rejected with the
missing-fields error and leaves the baseline state untouched. -/
theorem buy_checked_precondition_failures_witness :
    buyHandler st0 "bob" { listingId := none, amount := none, blockchainTxHash := none }
      ChainCall.rejected "0xmock" "T1" =
      (Except.error BuyError.missingFields, st0) :=
  (buy_checked_precondition_failures st0 "bob" _ ChainCall.rejected "0xmock" "T1").1
    BuyError.missingFields
    ((buy_checked_precondition_failures st0 "bob" _ ChainCall.rejected "0xmock" "T1").2.1
      (Or.inl rfl))

/-- The C4 scenario's request: buy the listing's full 100 kWh, with a
pre-confirmed settlement hash. -/
def c4req : BuyRequest :=
  { listingId := some "L1", amount := some 100, blockchainTxHash := some "0xpre" }

/-- Bob's plan when validating against the untouched baseline state. -/
def c4planBob : BuyPlan :=
  { buyer := bob, seller := alice, listing := listing1, listingId := "L1"
    amountNum := 100, rateNum := 1/10, totalCost := 10
    buyerEthBalance := 10, listingAmount := 100, preHash := some "0xpre" }

/-- Carl's plan when validating against the untouched baseline state. -/
def c4planCarl : BuyPlan :=
  { buyer := carl, seller := alice, listing := listing1, listingId := "L1"
    amountNum := 100, rateNum := 1/10, totalCost := 10
    buyerEthBalance := 10, listingAmount := 100, preHash := some "0xpre" }

/-- Bob's full-amount purchase validates against the baseline state. -/
theorem c4validateBob : buyValidate st0 "bob" c4req = Except.ok c4planBob := by
  simp only [buyValidate, c4req, st0_getListing, st0_getUser_bob, st0_getUser_alice, listing1]
  norm_num [bob, alice, c4planBob, listing1]

/-- Carl's full-amount purchase validates against the baseline state. -/
theorem c4validateCarl : buyValidate st0 "carl" c4req = Except.ok c4planCarl := by
  simp only [buyValidate, c4req, st0_getListing, st0_getUser_carl, st0_getUser_alice, listing1]
  norm_num [carl, alice, c4planCarl, listing1]

/-- The end state of the interleaved schedule: both requests validate
against the same snapshot (their read phases both complete before either
write phase — the awaited external settlement call sits between the two
phases with no lock), then both commit. -/
def c4interleaved : Storage :=
  buyCommit (buyCommit st0 "bob" c4planBob "0xpre" "T1") "carl" c4planCarl "0xpre" "T2"

/-- C4.  The claim says concurrent purchases can never exhaust a listing
more than once.  The route takes no lock and re-checks nothing after its
awaited external call, so in the schedule where bob's and carl's
validations both read the untouched listing before either commits, both
full-amount purchases complete: 200 kWh of completed transactions are
recorded against a 100 kWh listing.  Run sequentially instead, the
second request is correctly rejected — the oversell is specific to the
interleaving. -/
theorem buy_interleaved_oversell :
    buyValidate st0 "bob" c4req = Except.ok c4planBob ∧
    buyValidate st0 "carl" c4req = Except.ok c4planCarl ∧
    (c4interleaved.txns.map (fun t => t.amountKWh)).sum = 200 ∧
    c4interleaved.txns.map (fun t => t.status) = ["completed", "completed"] ∧
    listing1.amountKWh = 100 ∧
    buyValidate (buyCommit st0 "bob" c4planBob "0xpre" "T1") "carl" c4req =
      Except.error BuyError.listingNotFoundOrInactive := by
  refine ⟨c4validateBob, c4validateCarl, ?_, ?_, rfl, ?_⟩
  · norm_num [c4interleaved, buyCommit, c4planBob, c4planCarl, st0,
      apply_ite Storage.txns, buyTransactionRow]
  · norm_num [c4interleaved, buyCommit, c4planBob, c4planCarl, st0,
      apply_ite Storage.txns, buyTransactionRow]
  · have hfound : getEnergyListing (buyCommit st0 "bob" c4planBob "0xpre" "T1") "L1" =
        some { listing1 with isActive := false } := by
      have hbranch : buyCommit st0 "bob" c4planBob "0xpre" "T1" =
          deactivateEnergyListing
            (updateUser
              (updateUser (createTransaction st0 (buyTransactionRow c4planBob "bob" "0xpre" "T1"))
                "bob" { ethBalance? := some 0, energyBalance? := some 100 })
              "alice" { ethBalance? := some 20, energyBalance? := some 400, totalEarnings? := some 10 })
            "L1" := by
        simp only [buyCommit, c4planBob, listing1, bob, alice]
        norm_num
      rw [hbranch]
      rw [getEnergyListing_deactivateEnergyListing, getEnergyListing_updateUser,
        getEnergyListing_updateUser, getEnergyListing_createTransaction, st0_getListing,
        Option.map_some']
      simp [listing1]
    simp [buyValidate, c4req, hfound]

/-- A fully successful verify run: with every check passing, the handler
returns the looked-up-or-created user, the updated storage, and a
regenerated session whose nonce slot is empty. -/
theorem verify_success_run (st : Storage) (sess : SessionState) (m : SiweMessage)
    (host : Option String) (protocol : String) (r n : String)
    (ci : Bool) (er enr : Option ℚ) (nid : String)
    (hn : sess.nonce = some n)
    (hd : m.domain = host.getD "localhost")
    (hu : m.uri = protocol ++ "://" ++ host.getD "localhost")
    (hc : m.chainId = 11155111)
    (hnn : m.nonce = n)
    (hr : lowerStr r = lowerStr m.address) :
    verifyHandler st sess true true (some m) host protocol (some r) ci er enr nid =
      (Except.ok (authFindOrRefreshUser st m.address ci er enr nid).1,
        (authFindOrRefreshUser st m.address ci er enr nid).2,
        { userId := some (authFindOrRefreshUser st m.address ci er enr nid).1.id
          walletAddress := some m.address, nonce := none }) := by
  simp [verifyHandler, hn, hd, hu, hc, hnn, hr]

/-- C2 counterexample.  The claim says the stored nonce entry is removed
after any attempt that reaches the nonce comparison, signature failure
included, so a retry with the same nonce hits a nonce error.  In the
code no error path touches the session: an attempt with the correct
nonce `n1` but a signature recovering the wrong address returns the
signature error with the session unchanged — the nonce is still present
and a second identical attempt again gets past the nonce check to the
signature error, not a nonce error. -/
theorem verify_failed_attempt_keeps_nonce :
    verifyHandler st0 sess0 true true (some msg0) (some "localhost:5000") "http"
        (some "0xbbb") false none none "u9" =
      (Except.error VerifyError.sigInvalid, st0, sess0) ∧
    sess0.nonce = some "n1" ∧
    VerifyError.sigInvalid ≠ VerifyError.nonceMismatch ∧
    VerifyError.sigInvalid ≠ VerifyError.noNonce := by
  exact ⟨rfl, rfl, by decide, by decide⟩

/-- C2 (amended).  The nonce entry is cleared only by a successful
verification: success regenerates the session (empty nonce slot), so a
replay of the same request then fails with the no-nonce error; every
failing attempt returns with storage and session exactly as they were —
in particular the nonce survives and may be retried. -/
theorem verify_nonce_single_use_on_success (st : Storage) (sess : SessionState)
    (mp sp : Bool) (parsed : Option SiweMessage) (host : Option String) (protocol : String)
    (recovered : Option String) (ci : Bool) (er enr : Option ℚ) (nid : String) :
    (∀ u st' sess',
      verifyHandler st sess mp sp parsed host protocol recovered ci er enr nid =
        (Except.ok u, st', sess') →
      sess'.nonce = none ∧
      ∀ (host2 : Option String) (protocol2 : String) (recovered2 : Option String)
        (ci2 : Bool) (er2 enr2 : Option ℚ) (nid2 : String),
        (verifyHandler st' sess' mp sp parsed host2 protocol2 recovered2
            ci2 er2 enr2 nid2).1 = Except.error VerifyError.noNonce) ∧
    (∀ e st2 sess2,
      verifyHandler st sess mp sp parsed host protocol recovered ci er enr nid =
        (Except.error e, st2, sess2) →
      st2 = st ∧ sess2 = sess) := by
  constructor
  · intro u st' sess' h
    unfold verifyHandler at h
    repeat' split at h
    all_goals simp only [Prod.mk.injEq] at h
    all_goals simp at h
    obtain ⟨hu, hst, hsess⟩ := h
    subst hsess
    refine ⟨rfl, ?_⟩
    intro host2 protocol2 recovered2 ci2 er2 enr2 nid2
    simp_all [verifyHandler]
  · intro e st2 sess2 h
    unfold verifyHandler at h
    repeat' split at h
    all_goals simp only [Prod.mk.injEq] at h
    all_goals simp at h
    all_goals obtain ⟨h1, h2, h3⟩ := h
    all_goals simp_all

/-- Wallet-keyed lookup of alice in the baseline state. -/
theorem st0_getUserByWallet_alice : getUserByWalletAddress st0 "0xaaa" = some alice := by
  simp [getUserByWalletAddress, st0, List.find?, alice, bob, carl]

/-- The user returned by a C2-witness verify run: alice with both
balance fields overwritten by the fallback constants. -/
def c2userPost : User := { alice with ethBalance := 0, energyBalance := 1000 }

/-- The storage after the C2-witness verify run. -/
def c2stPost : Storage :=
  updateUser st0 "alice" { ethBalance? := some 0, energyBalance? := some 1000 }

/-- The regenerated session after the C2-witness verify run. -/
def c2sessPost : SessionState :=
  { userId := some "alice", walletAddress := some "0xaaa", nonce := none }

/-- The refresh branch of the user block on alice. -/
theorem c2find :
    authFindOrRefreshUser st0 "0xaaa" false none none "u9" = (c2userPost, c2stPost) := by
  simp [authFindOrRefreshUser, st0_getUserByWallet_alice, svcGetEthBalance,
    svcGetEnergyBalance, st0_getUser_alice, applyUserUpdates, alice,
    c2userPost, c2stPost]

/-- The concrete successful verify run used as the C2 witness. -/
theorem c2run :
    verifyHandler st0 sess0 true true (some msg0) (some "localhost:5000") "http"
        (some "0xaaa") false none none "u9" =
      (Except.ok c2userPost, c2stPost, c2sessPost) := by
  rw [verify_success_run st0 sess0 msg0 (some "localhost:5000") "http" "0xaaa" "n1"
    false none none "u9" rfl rfl rfl rfl rfl rfl]
  simp only [msg0]
  rw [c2find]
  rfl

/-- C2 witness: after alice's successful verification, the regenerated
session has no nonce and replaying the identical request is rejected
with the no-nonce error. -/
theorem verify_nonce_single_use_witness :
    c2sessPost.nonce = none ∧
    (verifyHandler c2stPost c2sessPost true true (some msg0) (some "localhost:5000") "http"
        (some "0xaaa") false none none "u9").1 = Except.error VerifyError.noNonce := by
  have h := (verify_nonce_single_use_on_success st0 sess0 true true (some msg0)
      (some "localhost:5000") "http" (some "0xaaa") false none none "u9").1
      c2userPost c2stPost c2sessPost c2run
  exact ⟨h.1, h.2 (some "localhost:5000") "http" (some "0xaaa") false none none "u9"⟩

/-- C5.  With a nonce issued, the verify handler runs its field checks in
the fixed order domain, URI, chainId, nonce, signature, stopping at the
first failure with that check's distinct error; in particular a message
whose domain differs from the server's host fails with the domain error
whatever the signature recovery would say. -/
theorem verify_check_cascade (st : Storage) (sess : SessionState) (m : SiweMessage)
    (host : Option String) (protocol : String) (recovered : Option String)
    (ci : Bool) (er enr : Option ℚ) (nid : String) (n : String)
    (hn : sess.nonce = some n) :
    (m.domain ≠ host.getD "localhost" →
      (verifyHandler st sess true true (some m) host protocol recovered ci er enr nid).1 =
        Except.error VerifyError.domainMismatch) ∧
    (m.domain = host.getD "localhost" →
      m.uri ≠ protocol ++ "://" ++ host.getD "localhost" →
      (verifyHandler st sess true true (some m) host protocol recovered ci er enr nid).1 =
        Except.error VerifyError.uriMismatch) ∧
    (m.domain = host.getD "localhost" →
      m.uri = protocol ++ "://" ++ host.getD "localhost" →
      m.chainId ≠ 11155111 →
      (verifyHandler st sess true true (some m) host protocol recovered ci er enr nid).1 =
        Except.error VerifyError.chainMismatch) ∧
    (m.domain = host.getD "localhost" →
      m.uri = protocol ++ "://" ++ host.getD "localhost" →
      m.chainId = 11155111 → m.nonce ≠ n →
      (verifyHandler st sess true true (some m) host protocol recovered ci er enr nid).1 =
        Except.error VerifyError.nonceMismatch) ∧
    (∀ r, m.domain = host.getD "localhost" →
      m.uri = protocol ++ "://" ++ host.getD "localhost" →
      m.chainId = 11155111 → m.nonce = n → recovered = some r →
      lowerStr r ≠ lowerStr m.address →
      (verifyHandler st sess true true (some m) host protocol recovered ci er enr nid).1 =
        Except.error VerifyError.sigInvalid) := by
  refine ⟨?_, ?_, ?_, ?_, ?_⟩ <;> intros <;> simp_all [verifyHandler]

/-- The C5 witness's message: correct everywhere except the domain. -/
def msgEvil : SiweMessage := { msg0 with domain := "evil.example" }

/-- C5 witness: a message for the attacker's domain is rejected with the
domain error even though the signature recovery matches the address. -/
theorem verify_check_cascade_witness :
    (verifyHandler st0 sess0 true true (some msgEvil) (some "localhost:5000") "http"
        (some "0xaaa") false none none "u9").1 = Except.error VerifyError.domainMismatch :=
  (verify_check_cascade st0 sess0 msgEvil (some "localhost:5000") "http" (some "0xaaa")
    false none none "u9" "n1" rfl).1 (by decide)

/-- The C9 state: one user already stored under the lowercase rendering
of the wallet. -/
def st9 : Storage :=
  { users := [{ id := "carl9", walletAddress := "0xabcd", energyBalance := 7, ethBalance := 3
                totalEarnings := 0, isNewUser := false }]
    listings := [], txns := [] }

/-- The C9 message: the same wallet in checksum-mixed case. -/
def msg9 : SiweMessage := { msg0 with address := "0xAbCd" }

/-- C9 counterexample.  The claim says the identity bound to the session
is the lowercased canonical address and that storage-key use is
case-insensitive.  The handler binds `parsedMessage.address` verbatim —
here the mixed-case `"0xAbCd"`, not its lowercase form — and the
case-sensitive wallet lookup misses the user row stored as `"0xabcd"`,
so a second user is created for the same wallet. -/
theorem verify_mixed_case_not_normalized :
    (verifyHandler st9 sess0 true true (some msg9) (some "localhost:5000") "http"
        (some "0xabcd") false none none "u9").2.2.walletAddress = some "0xAbCd" ∧
    lowerStr "0xAbCd" = "0xabcd" ∧
    ("0xAbCd" : String) ≠ "0xabcd" ∧
    (verifyHandler st9 sess0 true true (some msg9) (some "localhost:5000") "http"
        (some "0xabcd") false none none "u9").2.1.users.length = 2 := by
  exact ⟨rfl, rfl, by decide, rfl⟩

/-- C9 (amended).  On a successful verification the session identity is
the message's address string exactly as supplied, and when no user row
matches that exact string a fresh user keyed by it is created — lookup
and storage are case-sensitive, so differently-cased renderings of one
wallet act as distinct identities. -/
theorem verify_binds_address_verbatim (st : Storage) (sess : SessionState) (m : SiweMessage)
    (host : Option String) (protocol : String) (r n : String)
    (ci : Bool) (er enr : Option ℚ) (nid : String)
    (hn : sess.nonce = some n) (hd : m.domain = host.getD "localhost")
    (hu : m.uri = protocol ++ "://" ++ host.getD "localhost")
    (hc : m.chainId = 11155111) (hnn : m.nonce = n)
    (hr : lowerStr r = lowerStr m.address)
    (hnew : getUserByWalletAddress st m.address = none) :
    (verifyHandler st sess true true (some m) host protocol (some r)
        ci er enr nid).2.2.walletAddress = some m.address ∧
    getUserByWalletAddress
        (verifyHandler st sess true true (some m) host protocol (some r) ci er enr nid).2.1
        m.address =
      some { id := nid, walletAddress := m.address, energyBalance := 1000, ethBalance := 0
             totalEarnings := 0, isNewUser := true } := by
  have hfind : authFindOrRefreshUser st m.address ci er enr nid =
      ({ id := nid, walletAddress := m.address, energyBalance := 1000, ethBalance := 0
         totalEarnings := 0, isNewUser := true },
        createUser st
          { id := nid, walletAddress := m.address, energyBalance := 1000, ethBalance := 0
            totalEarnings := 0, isNewUser := true }) := by
    simp [authFindOrRefreshUser, hnew]
  rw [verify_success_run st sess m host protocol r n ci er enr nid hn hd hu hc hnn hr, hfind]
  refine ⟨rfl, ?_⟩
  have hnew' : st.users.find? (fun u => u.walletAddress == m.address) = none := hnew
  show List.find? (fun u : User => u.walletAddress == m.address)
      (st.users ++
        [{ id := nid, walletAddress := m.address, energyBalance := 1000, ethBalance := 0
           totalEarnings := 0, isNewUser := true }]) =
    some { id := nid, walletAddress := m.address, energyBalance := 1000, ethBalance := 0
           totalEarnings := 0, isNewUser := true }
  rw [find?_append_of_none hnew']
  simp [List.find?]

/-- C9 witness: a mixed-case sign-in against a state with no exact-match
row binds the mixed-case address and stores a user keyed by it. -/
theorem verify_binds_address_verbatim_witness :
    (verifyHandler st9 sess0 true true (some msg9) (some "localhost:5000") "http"
        (some "0xAbCd") false none none "u7").2.2.walletAddress = some "0xAbCd" ∧
    getUserByWalletAddress
        (verifyHandler st9 sess0 true true (some msg9) (some "localhost:5000") "http"
          (some "0xAbCd") false none none "u7").2.1 "0xAbCd" =
      some { id := "u7", walletAddress := "0xAbCd", energyBalance := 1000, ethBalance := 0
             totalEarnings := 0, isNewUser := true } :=
  verify_binds_address_verbatim st9 sess0 msg9 (some "localhost:5000") "http" "0xAbCd" "n1"
    false none none "u7" rfl rfl rfl rfl rfl rfl rfl

/-- C10.  The legacy connect endpoint authenticates from the body alone:
whenever the recovered signer matches the supplied wallet address
case-insensitively the call succeeds; its response and storage effect are
identical for any two session states (it reads no nonce, domain, URI or
chain binding); and the identical request repeated against the resulting
state succeeds again — a captured signed message replays indefinitely. -/
theorem connect_session_independent_replayable (st : Storage) (s1 s2 : SessionState)
    (wa m sig : String) (recovered : Option String) (ci : Bool) (er enr : Option ℚ)
    (nid : String) (ci2 : Bool) (er2 enr2 : Option ℚ) (nid2 : String)
    (hsig : svcVerifySignature recovered wa = true) :
    (connectHandler st s1 (some wa) (some m) (some sig) recovered ci er enr nid).1 =
      (connectHandler st s2 (some wa) (some m) (some sig) recovered ci er enr nid).1 ∧
    (connectHandler st s1 (some wa) (some m) (some sig) recovered ci er enr nid).2.1 =
      (connectHandler st s2 (some wa) (some m) (some sig) recovered ci er enr nid).2.1 ∧
    (connectHandler st s1 (some wa) (some m) (some sig) recovered ci er enr nid).1 =
      Except.ok (authFindOrRefreshUser st wa ci er enr nid).1 ∧
    (connectHandler
        (connectHandler st s1 (some wa) (some m) (some sig) recovered ci er enr nid).2.1
        s1 (some wa) (some m) (some sig) recovered ci2 er2 enr2 nid2).1 =
      Except.ok (authFindOrRefreshUser
        (authFindOrRefreshUser st wa ci er enr nid).2 wa ci2 er2 enr2 nid2).1 := by
  refine ⟨?_, ?_, ?_, ?_⟩ <;> simp [connectHandler, hsig]

/-- C10 witness: a signed message for alice's wallet (recovered in upper
case) succeeds, its effect ignores the session, and the identical call
run again on the resulting state succeeds as well. -/
theorem connect_session_independent_replayable_witness :
    (connectHandler st0 sess0 (some "0xaaa") (some "m") (some "s") (some "0xAAA")
        false none none "u9").1 =
      (connectHandler st0 { userId := none, walletAddress := none, nonce := none }
        (some "0xaaa") (some "m") (some "s") (some "0xAAA") false none none "u9").1 ∧
    (connectHandler st0 sess0 (some "0xaaa") (some "m") (some "s") (some "0xAAA")
        false none none "u9").2.1 =
      (connectHandler st0 { userId := none, walletAddress := none, nonce := none }
        (some "0xaaa") (some "m") (some "s") (some "0xAAA") false none none "u9").2.1 ∧
    (connectHandler st0 sess0 (some "0xaaa") (some "m") (some "s") (some "0xAAA")
        false none none "u9").1 =
      Except.ok (authFindOrRefreshUser st0 "0xaaa" false none none "u9").1 ∧
    (connectHandler
        (connectHandler st0 sess0 (some "0xaaa") (some "m") (some "s") (some "0xAAA")
          false none none "u9").2.1
        sess0 (some "0xaaa") (some "m") (some "s") (some "0xAAA") false none none "u9").1 =
      Except.ok (authFindOrRefreshUser
        (authFindOrRefreshUser st0 "0xaaa" false none none "u9").2 "0xaaa"
        false none none "u9").1 :=
  connect_session_independent_replayable st0 sess0
    { userId := none, walletAddress := none, nonce := none } "0xaaa" "m" "s"
    (some "0xAAA") false none none "u9" false none none "u9" (by decide)

end EnergyMarket
